import Mathlib

/-!
Verification development for the thumbnail-insights application (`app.py`).

The application's pipeline functions are embedded shallowly:
  * `to_b64` / `b64decode` model Python's `base64.b64encode(...).decode()`
    and `base64.b64decode`.
  * `Json` and `json_loads` model the values and the parse function
    `json.loads` (restricted to the escape-free fragment of JSON, which is
    all the development needs).
  * `analyze_thumbnail`, `synthesize_insights`, `generate_wireframe_request`
    and `process_batch` are the pure cores of the functions of the same
    names in `app.py` (network calls are abstracted as the request values
    they would send, and the Streamlit warning becomes a boolean flag).
-/

/-- JSON values as produced by `json.loads` (numbers restricted to
integers, strings to the escape-free fragment). -/
inductive Json where
  | null : Json
  | bool : Bool → Json
  | num : Int → Json
  | str : String → Json
  | arr : List Json → Json
  | obj : List (String × Json) → Json
deriving Repr

/-- The opening-brace character, written via its code point. -/
def lbrace : Char := Char.ofNat 123

/-- The closing-brace character, written via its code point. -/
def rbrace : Char := Char.ofNat 125

/-- JSON whitespace characters. -/
def isWsChar (c : Char) : Bool :=
  c == ' ' || c == Char.ofNat 10 || c == Char.ofNat 9 || c == Char.ofNat 13

/-- Skip leading whitespace. -/
def skipWs (cs : List Char) : List Char := cs.dropWhile isWsChar

/-- ASCII decimal digit test. -/
def isDigitChar (c : Char) : Bool := '0' ≤ c && c ≤ '9'

/-- Value of a digit string. -/
def digitsToNat (ds : List Char) : Nat :=
  ds.foldl (fun acc d => acc * 10 + (d.toNat - 48)) 0

/-- Parse the body of a JSON string after the opening quote (escape-free
fragment): the characters up to the next quote, which must exist. -/
def parseStrBody (cs : List Char) : Option (String × List Char) :=
  let body := cs.takeWhile (fun c => !(c == '\"'))
  match cs.dropWhile (fun c => !(c == '\"')) with
  | q :: rest => if q == '\"' then some (String.mk body, rest) else none
  | [] => none

mutual

/-- Recursive-descent JSON value, fuelled to make termination obvious.
Models the grammar accepted by `json.loads`. -/
def parseVal : Nat → List Char → Option (Json × List Char)
  | 0, _ => none
  | fuel + 1, cs =>
    match skipWs cs with
    | [] => none
    | c :: rest =>
      if c == lbrace then
        match skipWs rest with
        | c2 :: rest2 =>
          if c2 == rbrace then some (Json.obj [], rest2)
          else
            match parseMembers fuel rest with
            | some (kvs, r) => some (Json.obj kvs, r)
            | none => none
        | [] => none
      else if c == '[' then
        match skipWs rest with
        | c2 :: rest2 =>
          if c2 == ']' then some (Json.arr [], rest2)
          else
            match parseElems fuel rest with
            | some (vs, r) => some (Json.arr vs, r)
            | none => none
        | [] => none
      else if c == '\"' then
        match parseStrBody rest with
        | some (s, rest2) => some (Json.str s, rest2)
        | none => none
      else if c == 't' then
        if rest.take 3 = ['r', 'u', 'e'] then some (Json.bool true, rest.drop 3) else none
      else if c == 'f' then
        if rest.take 4 = ['a', 'l', 's', 'e'] then some (Json.bool false, rest.drop 4) else none
      else if c == 'n' then
        if rest.take 3 = ['u', 'l', 'l'] then some (Json.null, rest.drop 3) else none
      else if c == '-' then
        match rest.takeWhile isDigitChar with
        | [] => none
        | ds => some (Json.num (-(digitsToNat ds : Int)), rest.drop ds.length)
      else if isDigitChar c then
        let ds := (c :: rest).takeWhile isDigitChar
        some (Json.num (digitsToNat ds), (c :: rest).drop ds.length)
      else none

/-- Members of a JSON object after the opening brace (nonempty case). -/
def parseMembers : Nat → List Char → Option (List (String × Json) × List Char)
  | 0, _ => none
  | fuel + 1, cs =>
    match skipWs cs with
    | [] => none
    | c :: rest =>
      if c == '\"' then
        match parseStrBody rest with
        | some (k, rest2) =>
          match skipWs rest2 with
          | c2 :: rest3 =>
            if c2 == ':' then
              match parseVal fuel rest3 with
              | some (v, rest4) =>
                match skipWs rest4 with
                | c3 :: rest5 =>
                  if c3 == ',' then
                    match parseMembers fuel rest5 with
                    | some (kvs, rest6) => some ((k, v) :: kvs, rest6)
                    | none => none
                  else if c3 == rbrace then some ([(k, v)], rest5)
                  else none
                | [] => none
              | none => none
            else none
          | [] => none
        | none => none
      else none

/-- Elements of a JSON array after the opening bracket (nonempty case). -/
def parseElems : Nat → List Char → Option (List Json × List Char)
  | 0, _ => none
  | fuel + 1, cs =>
    match parseVal fuel cs with
    | some (v, rest) =>
      match skipWs rest with
      | c :: rest2 =>
        if c == ',' then
          match parseElems fuel rest2 with
          | some (vs, rest3) => some (v :: vs, rest3)
          | none => none
        else if c == ']' then some ([v], rest2)
        else none
      | [] => none
    | none => none

end

/-- Model of Python's `json.loads`: parse one JSON value and require that
only whitespace remains; `none` models a raised `json.JSONDecodeError`. -/
def json_loads (text : String) : Option Json :=
  let cs := text.toList
  match parseVal (2 * cs.length + 8) cs with
  | some (v, rest) => if skipWs rest = [] then some v else none
  | none => none

example : json_loads ("\x7b\"patterns\": [\"x\"]\x7d")
    = some (Json.obj [("patterns", Json.arr [Json.str "x"])]) := by rfl

example : json_loads ("not json") = none := by rfl

/-! ## Base64 (models `base64.b64encode(...).decode()` and `base64.b64decode`) -/

/-- The standard base64 alphabet. -/
def b64chars : List Char :=
  ['A', 'B', 'C', 'D', 'E', 'F', 'G', 'H', 'I', 'J', 'K', 'L', 'M',
   'N', 'O', 'P', 'Q', 'R', 'S', 'T', 'U', 'V', 'W', 'X', 'Y', 'Z',
   'a', 'b', 'c', 'd', 'e', 'f', 'g', 'h', 'i', 'j', 'k', 'l', 'm',
   'n', 'o', 'p', 'q', 'r', 's', 't', 'u', 'v', 'w', 'x', 'y', 'z',
   '0', '1', '2', '3', '4', '5', '6', '7', '8', '9', '+', '/']

/-- The base64 padding character. -/
def padChar : Char := '='

/-- Character for a six-bit group. -/
def encodeChar (n : Nat) : Char := b64chars.getD n 'A'

/-- Six-bit value of an alphabet character (`none` off the alphabet). -/
def decodeChar (c : Char) : Option Nat := b64chars.findIdx? (fun x => x == c)

/-- Six-bit groups of a byte sequence, processed three bytes at a time as
`base64.b64encode` does. -/
def b64sextets : List Nat → List Nat
  | [] => []
  | [a] => [a / 4, a % 4 * 16]
  | [a, b] => [a / 4, a % 4 * 16 + b / 16, b % 16 * 4]
  | a :: b :: c :: rest =>
    (a / 4) :: (a % 4 * 16 + b / 16) :: (b % 16 * 4 + c / 64) :: (c % 64) :: b64sextets rest

/-- Model of `base64.b64encode(data).decode()`: alphabet characters for the
six-bit groups followed by `=` padding to a multiple of four. -/
def to_b64 (data : List Nat) : String :=
  String.mk ((b64sextets data).map encodeChar
      ++ List.replicate ((3 - data.length % 3) % 3) padChar)

/-- Bytes recovered from a list of six-bit groups; `none` when the length
is congruent to 1 mod 4, which valid base64 never produces. -/
def decodeSextets : List Nat → Option (List Nat)
  | [] => some []
  | [_] => none
  | [a, b] => some [a * 4 + b / 16]
  | [a, b, c] => some [a * 4 + b / 16, b % 16 * 16 + c / 4]
  | a :: b :: c :: d :: rest =>
    match decodeSextets rest with
    | some tail =>
      some ((a * 4 + b / 16) :: (b % 16 * 16 + c / 4) :: (c % 4 * 64 + d) :: tail)
    | none => none

/-- Decode every character through the alphabet, failing on the first
character off the alphabet. -/
def mapDecodeChars : List Char → Option (List Nat)
  | [] => some []
  | c :: cs =>
    match decodeChar c, mapDecodeChars cs with
    | some n, some ns => some (n :: ns)
    | _, _ => none

/-- Model of `base64.b64decode` on padded standard base64: drop the padding,
map characters back to six-bit groups, and reassemble the bytes. -/
def b64decode (s : String) : Option (List Nat) :=
  match mapDecodeChars (s.toList.takeWhile (fun c => !(c == padChar))) with
  | some sextets => decodeSextets sextets
  | none => none

example : to_b64 ([77, 97, 110]) = "TWFu" := by rfl
example : b64decode ("TWFu") = some [77, 97, 110] := by rfl
example : b64decode (to_b64 ([77, 97])) = some [77, 97] := by rfl
example : b64decode (to_b64 ([255])) = some [255] := by rfl

/-! ## The pipeline functions of `app.py` -/

/-- Lookup in a parsed JSON object, as `dict.get(k)` on the dict that
`json.loads` returns. -/
def dictGet (kvs : List (String × Json)) (k : String) : Option Json :=
  (kvs.find? (fun p => p.1 == k)).map Prod.snd

/-- The empty JSON list, the default for a missing analysis key. -/
def emptyArr : Json := Json.arr []

/-- The all-defaults analysis structure returned when parsing fails. -/
def analyze_defaults : List (String × Json) :=
  [("patterns", emptyArr), ("psychology", emptyArr),
   ("pros", emptyArr), ("cons", emptyArr)]

/-- Response handling of `analyze_thumbnail` (app.py lines 49-61): one
strict `json.loads`; on `JSONDecodeError` a warning plus the defaults; on
success the four expected keys each defaulted with `parsed.get(k, [])`.
`Except.error` models the uncaught `AttributeError` when the parsed value
is not a dict. The `Bool` is true when the warning was emitted. -/
def analyze_thumbnail (text : String) : Except Unit (List (String × Json) × Bool) :=
  match json_loads text with
  | none => Except.ok (analyze_defaults, true)
  | some (Json.obj kvs) =>
    Except.ok
      ([("patterns", (dictGet kvs ("patterns")).getD emptyArr),
        ("psychology", (dictGet kvs ("psychology")).getD emptyArr),
        ("pros", (dictGet kvs ("pros")).getD emptyArr),
        ("cons", (dictGet kvs ("cons")).getD emptyArr)], false)
  | some _ => Except.error ()

/-- Fallback result of `synthesize_insights` on a parse failure
(app.py lines 92-98): empty lists for the two summary keys and the raw
response text as the wireframe prompt. -/
def synthesize_fallback (text : String) : Json :=
  Json.obj [("common_patterns", emptyArr), ("common_psychology", emptyArr),
            ("wireframe_prompt", Json.str text)]

/-- Response handling of `synthesize_insights` (app.py lines 89-98): the
parsed JSON verbatim on success, the fallback structure plus a warning on
failure. The `Bool` is true when the warning was emitted. -/
def synthesize_insights (text : String) : Json × Bool :=
  match json_loads text with
  | some v => (v, false)
  | none => (synthesize_fallback text, true)

mutual

/-- Model of `json.dumps` with the default separators. -/
def Json.dumps : Json → String
  | Json.null => "null"
  | Json.bool true => "true"
  | Json.bool false => "false"
  | Json.num n => toString n
  | Json.str s => "\"" ++ s ++ "\""
  | Json.arr xs => "[" ++ Json.dumpsElems xs ++ "]"
  | Json.obj kvs => "\x7b" ++ Json.dumpsMembers kvs ++ "\x7d"

/-- Serialized elements of a JSON array, comma separated. -/
def Json.dumpsElems : List Json → String
  | [] => ""
  | x :: xs => Json.dumps x ++ (if xs.isEmpty then "" else ", ") ++ Json.dumpsElems xs

/-- Serialized members of a JSON object, comma separated. -/
def Json.dumpsMembers : List (String × Json) → String
  | [] => ""
  | (k, v) :: kvs =>
    "\"" ++ k ++ "\": " ++ Json.dumps v
      ++ (if kvs.isEmpty then "" else ", ") ++ Json.dumpsMembers kvs

end

/-- One message of a chat-completions request. -/
structure ChatMessage where
  role : String
  content : String
deriving Repr, DecidableEq

/-- System instruction of `synthesize_insights`. -/
def synth_system : String :=
  "You are a design and marketing-psychology expert. Respond ONLY with JSON."

/-- User instruction of `synthesize_insights`. -/
def synth_user_text : String :=
  "Input = JSON array of objects with keys patterns, psychology, pros, cons.\n"
    ++ "1) common_patterns: list 3 top visual patterns shared across thumbnails.\n"
    ++ "2) common_psychology: list 3 top psychological hooks shared.\n"
    ++ "3) wireframe_prompt: one short prompt for an AI to generate a simple thumbnail WIREFRAME using those patterns & psychology."

/-- The request `synthesize_insights` sends upstream (app.py lines 71-88):
the last message carries `json.dumps` of `analyses[-5:]`, modelled by
`List.drop (length - 5)`. -/
def synthesize_request (analyses : List Json) : List ChatMessage :=
  [⟨"system", synth_system⟩,
   ⟨"user", synth_user_text⟩,
   ⟨"assistant", ""⟩,
   ⟨"user", Json.dumps (Json.arr (analyses.drop (analyses.length - 5)))⟩]

/-- One image-generation request as `client.images.generate` receives it. -/
structure ImageRequest where
  model : String
  prompt : String
  size : String
  n : Nat
deriving Repr, DecidableEq

/-- Request-issuing behaviour of `generate_wireframe` (app.py lines
101-107): the request that reaches the endpoint, or `none` had the
function failed before any network call.  The source performs no
validation, so a request is issued for every prompt. -/
def generate_wireframe_request (prompt : String) : Option ImageRequest :=
  some ⟨"gpt_image_1", prompt, "1024x576", 1⟩

/-! ## Session-state handling of `main` (upload deduplication) -/

/-- One entry of `st.session_state.data` (app.py lines 139-143). -/
structure UploadRecord where
  name : String
  size : Nat
  analysis : List (String × Json)

/-- The duplicate test of app.py line 133: some existing record matches
both the upload's name and its byte length. -/
def is_dup (data : List UploadRecord) (name : String) (size : Nat) : Bool :=
  data.any (fun d => d.name == name && d.size == size)

/-- The `new` list of app.py lines 130-134: uploads whose (name, byte
length) matches no record already in the session state. -/
def select_new (data : List UploadRecord) (uploads : List (String × List Nat)) :
    List (String × List Nat) :=
  uploads.filter (fun f => !(is_dup data f.1 f.2.length))

/-- The analysis loop of app.py lines 137-143: each selected upload is
analyzed (`analyzeF` abstracts the network-dependent analysis) and its
record appended to the session state. -/
def process_batch (data : List UploadRecord) (uploads : List (String × List Nat))
    (analyzeF : String → List Nat → List (String × Json)) : List UploadRecord :=
  data ++ (select_new data uploads).map (fun f => ⟨f.1, f.2.length, analyzeF f.1 f.2⟩)

/-- The invariant claimed for the session collection: no two records share
the (name, byteLength) pair. -/
def no_dup_pairs (data : List UploadRecord) : Prop :=
  data.Pairwise (fun a b => ¬(a.name = b.name ∧ a.size = b.size))

/-- The caller-side `result.get("wireframe_prompt", "")` of app.py line
170: `Except.error` models the `AttributeError` raised when the synthesis
result is not a dict. -/
def dict_get_default (v : Json) (k : String) (d : Json) : Except Unit Json :=
  match v with
  | Json.obj kvs => Except.ok ((dictGet kvs k).getD d)
  | _ => Except.error ()

/-! ## The recovery chain described by the specification -/

/-- Modelled from the spec: the "first top-level curly-brace substring" of
the response text — from the first opening brace to its balanced closing
brace. Absent from the source, which never searches for a substring. -/
def takeBalanced : Nat → List Char → List Char → Option (List Char)
  | _, _, [] => none
  | depth, acc, c :: rest =>
    if c == lbrace then takeBalanced (depth + 1) (c :: acc) rest
    else if c == rbrace then
      if depth ≤ 1 then some ((c :: acc).reverse) else takeBalanced (depth - 1) (c :: acc) rest
    else takeBalanced depth (c :: acc) rest

/-- Modelled from the spec: extraction of the first `\x7b...\x7d`
substring. Absent from the source. -/
def extractBraces (text : String) : Option String :=
  match takeBalanced 0 [] (text.toList.dropWhile (fun c => !(c == lbrace))) with
  | some cs => some (String.mk cs)
  | none => none

/-- Modelled from the spec: removal of commas that directly precede (up to
whitespace) a closing brace or bracket. Absent from the source. -/
def stripTrailingCommas : List Char → List Char
  | [] => []
  | c :: rest =>
    if c == ',' then
      match skipWs rest with
      | c2 :: _ =>
        if c2 == rbrace || c2 == ']' then stripTrailingCommas rest
        else c :: stripTrailingCommas rest
      | [] => c :: stripTrailingCommas rest
    else c :: stripTrailingCommas rest

/-- Modelled from the spec: the claimed ordered chain of parsing
strategies — strict parse, then parse of the extracted brace substring,
then parse after trailing-comma repair; first success wins. The source
of `analyze_thumbnail` implements only the first strategy. -/
def recoverChain (text : String) : Option Json :=
  match json_loads text with
  | some v => some v
  | none =>
    match extractBraces text with
    | some sub =>
      match json_loads sub with
      | some v => some v
      | none => json_loads (String.mk (stripTrailingCommas text.toList))
    | none => json_loads (String.mk (stripTrailingCommas text.toList))

example :
    recoverChain ("xx\x7b\"patterns\": [\"a\"]\x7d")
      = some (Json.obj [("patterns", Json.arr [Json.str "a"])]) := by rfl

example :
    analyze_thumbnail ("xx\x7b\"patterns\": [\"a\"]\x7d")
      = Except.ok (analyze_defaults, true) := by rfl

/-! ## Claim C1 -/

/-- C1, counterexample: on the response text `xx{"patterns": ["a"]}` the
claimed chain's second strategy succeeds (the extracted brace substring
parses, with a non-default `patterns` value), yet `analyze_thumbnail`
returns the all-defaults structure with a warning — the code never applies
the substring or comma-repair strategies, so the claimed ordered chain is
not what `analyze` does. -/
theorem analyze_chain_counterexample :
    analyze_thumbnail ("xx\x7b\"patterns\": [\"a\"]\x7d") = Except.ok (analyze_defaults, true)
    ∧ recoverChain ("xx\x7b\"patterns\": [\"a\"]\x7d")
        = some (Json.obj [("patterns", Json.arr [Json.str "a"])])
    ∧ Json.arr [Json.str "a"] ≠ emptyArr := by
  refine ⟨rfl, rfl, ?_⟩
  simp [emptyArr]

/-- C1, amended: `analyze` applies only the first of the three strategies,
a strict JSON parse of the response text; when that fails it immediately
yields the default structure, with no substring extraction and no
trailing-comma repair; when it succeeds on an object, the defaulted key
fill is applied to the parsed object. -/
theorem analyze_single_strategy (text : String) :
    (json_loads text = none → analyze_thumbnail text = Except.ok (analyze_defaults, true))
    ∧ (∀ kvs, json_loads text = some (Json.obj kvs) →
        analyze_thumbnail text =
          Except.ok ([("patterns", (dictGet kvs ("patterns")).getD emptyArr),
            ("psychology", (dictGet kvs ("psychology")).getD emptyArr),
            ("pros", (dictGet kvs ("pros")).getD emptyArr),
            ("cons", (dictGet kvs ("cons")).getD emptyArr)], false)) := by
  constructor
  · intro h
    simp [analyze_thumbnail, h]
  · intro kvs h
    simp [analyze_thumbnail, h]

/-- C1, witness for the amended theorem at the response text `xx`. -/
theorem analyze_single_strategy_witness :
    json_loads ("xx") = none
    ∧ analyze_thumbnail ("xx") = Except.ok (analyze_defaults, true) :=
  ⟨rfl, (analyze_single_strategy ("xx")).1 rfl⟩

/-! ## Claim C2 -/

/-- C2: on every response text that parses as a JSON object, `analyze`
returns (without warning) a structure in which each of the four expected
keys is present; a key present in the parsed object keeps its parsed value
and an absent key is bound to the empty list. -/
theorem analyze_expected_keys (text : String) (kvs : List (String × Json))
    (h : json_loads text = some (Json.obj kvs)) :
    ∃ r, analyze_thumbnail text = Except.ok (r, false)
      ∧ dictGet r ("patterns") = some ((dictGet kvs ("patterns")).getD emptyArr)
      ∧ dictGet r ("psychology") = some ((dictGet kvs ("psychology")).getD emptyArr)
      ∧ dictGet r ("pros") = some ((dictGet kvs ("pros")).getD emptyArr)
      ∧ dictGet r ("cons") = some ((dictGet kvs ("cons")).getD emptyArr) := by
  refine ⟨[("patterns", (dictGet kvs ("patterns")).getD emptyArr),
      ("psychology", (dictGet kvs ("psychology")).getD emptyArr),
      ("pros", (dictGet kvs ("pros")).getD emptyArr),
      ("cons", (dictGet kvs ("cons")).getD emptyArr)],
    by simp [analyze_thumbnail, h], rfl, rfl, rfl, rfl⟩

/-- C2, witness at a response carrying only `patterns`: the present key is
passed through, the three absent keys default to the empty list. -/
theorem analyze_expected_keys_witness :
    json_loads ("\x7b\"patterns\": [\"x\"]\x7d")
      = some (Json.obj [("patterns", Json.arr [Json.str "x"])])
    ∧ ∃ r, analyze_thumbnail ("\x7b\"patterns\": [\"x\"]\x7d") = Except.ok (r, false)
      ∧ dictGet r ("patterns")
          = some ((dictGet [("patterns", Json.arr [Json.str "x"])] ("patterns")).getD emptyArr)
      ∧ dictGet r ("psychology")
          = some ((dictGet [("patterns", Json.arr [Json.str "x"])] ("psychology")).getD emptyArr)
      ∧ dictGet r ("pros")
          = some ((dictGet [("patterns", Json.arr [Json.str "x"])] ("pros")).getD emptyArr)
      ∧ dictGet r ("cons")
          = some ((dictGet [("patterns", Json.arr [Json.str "x"])] ("cons")).getD emptyArr) :=
  ⟨rfl, analyze_expected_keys ("\x7b\"patterns\": [\"x\"]\x7d") _ rfl⟩

/-! ## Claim C3 -/

/-- C3: on every response text on which every strategy of the recovery
chain fails (in particular the strict parse, the only one the code runs),
`analyze` returns the all-defaults structure with the non-fatal warning
flag set, and raises nothing (`Except.ok`), so the analysis batch
continues. -/
theorem analyze_parse_failure (text : String) (h : recoverChain text = none) :
    analyze_thumbnail text = Except.ok (analyze_defaults, true) := by
  have hs : json_loads text = none := by
    cases hj : json_loads text with
    | none => rfl
    | some v =>
      rw [recoverChain, hj] at h
      exact absurd h (by simp)
  simp [analyze_thumbnail, hs]

/-- C3, witness at the response text `not json`, on which every strategy
fails. -/
theorem analyze_parse_failure_witness :
    recoverChain ("not json") = none
    ∧ analyze_thumbnail ("not json") = Except.ok (analyze_defaults, true) :=
  ⟨rfl, analyze_parse_failure ("not json") rfl⟩

/-! ## Claim C4 -/

/-- C4, counterexample: `generate_wireframe` performs no prompt
validation; for the empty prompt the image-generation request is issued
(there is no failure before the network call), and `main` does reach
`generate_wireframe` with the empty prompt whenever the synthesis result
lacks `wireframe_prompt`. -/
theorem generate_empty_prompt_counterexample :
    generate_wireframe_request ("") = some ⟨"gpt_image_1", "", "1024x576", 1⟩
    ∧ generate_wireframe_request ("") ≠ none
    ∧ dict_get_default (Json.obj []) ("wireframe_prompt") (Json.str "")
        = Except.ok (Json.str "") := by
  refine ⟨rfl, ?_, rfl⟩
  simp [generate_wireframe_request]

/-- C4, amended: `generate` validates nothing — for every prompt, the
empty one included, exactly the fixed image-generation request carrying
that prompt is issued. -/
theorem generate_no_validation (prompt : String) :
    generate_wireframe_request prompt = some ⟨"gpt_image_1", prompt, "1024x576", 1⟩ := rfl

/-! ## Claim C5 -/

/-- C5: the synthesis request depends only on the last five analyses:
replacing everything before the final five leaves the request, and with it
the synthesis output for any upstream response function, unchanged. -/
theorem synthesize_last_five (pre1 pre2 last5 : List Json) (h : last5.length = 5)
    (resp : List ChatMessage → String) :
    synthesize_request (pre1 ++ last5) = synthesize_request (pre2 ++ last5)
    ∧ synthesize_insights (resp (synthesize_request (pre1 ++ last5)))
        = synthesize_insights (resp (synthesize_request (pre2 ++ last5))) := by
  have key : ∀ pre : List Json, (pre ++ last5).drop ((pre ++ last5).length - 5) = last5 := by
    intro pre
    have hlen : (pre ++ last5).length - 5 = pre.length := by
      rw [List.length_append, h]
      omega
    rw [hlen, List.drop_left]
  have req : synthesize_request (pre1 ++ last5) = synthesize_request (pre2 ++ last5) := by
    unfold synthesize_request
    rw [key pre1, key pre2]
  exact ⟨req, by rw [req]⟩

/-- C5, witness: seven analyses versus six, agreeing only on the final
five, produce the same request. -/
theorem synthesize_last_five_witness :
    (List.replicate 5 Json.null).length = 5
    ∧ synthesize_request ([Json.num 1, Json.num 2] ++ List.replicate 5 Json.null)
        = synthesize_request ([Json.num 3] ++ List.replicate 5 Json.null) :=
  ⟨rfl, (synthesize_last_five [Json.num 1, Json.num 2] [Json.num 3]
      (List.replicate 5 Json.null) rfl (fun _ => "")).1⟩

/-! ## Claim C6 -/

/-- C6, counterexample: on the unparseable response `not json` the
synthesis fallback sets only `wireframe_prompt` to the raw text; the
summary fields `common_patterns` and `common_psychology` are empty lists,
not the raw text as the claim states. -/
theorem synthesize_fallback_counterexample :
    json_loads ("not json") = none
    ∧ synthesize_insights ("not json")
        = (Json.obj [("common_patterns", emptyArr), ("common_psychology", emptyArr),
            ("wireframe_prompt", Json.str ("not json"))], true)
    ∧ emptyArr ≠ Json.str ("not json") := by
  refine ⟨rfl, rfl, ?_⟩
  simp [emptyArr]

/-- C6, amended: on every response text that fails to parse, `synthesize`
returns (with the warning flag, discarding nothing) the structure whose
summary keys are empty lists and whose `wireframe_prompt` is the raw
response text — the raw text survives only in the generation prompt. -/
theorem synthesize_parse_fallback (text : String) (h : json_loads text = none) :
    synthesize_insights text
      = (Json.obj [("common_patterns", emptyArr), ("common_psychology", emptyArr),
          ("wireframe_prompt", Json.str text)], true) := by
  simp [synthesize_insights, h, synthesize_fallback]

/-- C6, witness for the amended theorem at the response text `oops`. -/
theorem synthesize_parse_fallback_witness :
    json_loads ("oops") = none
    ∧ synthesize_insights ("oops")
        = (Json.obj [("common_patterns", emptyArr), ("common_psychology", emptyArr),
            ("wireframe_prompt", Json.str ("oops"))], true) :=
  ⟨rfl, synthesize_parse_fallback ("oops") rfl⟩

/-! ## Claim C9 -/

/-- C9, counterexample: a parsed response whose `common_patterns` is the
single string `a` is returned with that string unchanged — it is not
wrapped into a one-element sequence. -/
theorem synthesize_no_wrap_counterexample :
    json_loads ("\x7b\"common_patterns\": \"a\"\x7d")
      = some (Json.obj [("common_patterns", Json.str "a")])
    ∧ synthesize_insights ("\x7b\"common_patterns\": \"a\"\x7d")
        = (Json.obj [("common_patterns", Json.str "a")], false)
    ∧ Json.str "a" ≠ Json.arr [Json.str "a"] := by
  refine ⟨rfl, rfl, ?_⟩
  simp

/-- C9, amended: `synthesize` performs no normalization — the parsed
object is returned verbatim, so a summary field that arrives as a single
string is still that string in the result. -/
theorem synthesize_no_normalization (text : String) (kvs : List (String × Json)) (s : String)
    (h : json_loads text = some (Json.obj kvs))
    (hcp : dictGet kvs ("common_patterns") = some (Json.str s)) :
    ∃ r, synthesize_insights text = (Json.obj r, false)
      ∧ dictGet r ("common_patterns") = some (Json.str s) :=
  ⟨kvs, by simp [synthesize_insights, h], hcp⟩

/-- C9, witness for the amended theorem. -/
theorem synthesize_no_normalization_witness :
    json_loads ("\x7b\"common_patterns\": \"b\"\x7d")
      = some (Json.obj [("common_patterns", Json.str "b")])
    ∧ dictGet [("common_patterns", Json.str "b")] ("common_patterns") = some (Json.str "b")
    ∧ ∃ r, synthesize_insights ("\x7b\"common_patterns\": \"b\"\x7d") = (Json.obj r, false)
      ∧ dictGet r ("common_patterns") = some (Json.str "b") :=
  ⟨rfl, rfl, synthesize_no_normalization ("\x7b\"common_patterns\": \"b\"\x7d") _ _ rfl rfl⟩

/-! ## Claim C10 -/

/-- C10: on every response text that parses as a JSON object, `synthesize`
returns the parsed mapping verbatim (no key defaulting, no warning); when
`wireframe_prompt` is absent the caller's `result.get` substitutes the
empty string as the generation prompt. -/
theorem synthesize_verbatim (text : String) (kvs : List (String × Json))
    (h : json_loads text = some (Json.obj kvs)) :
    synthesize_insights text = (Json.obj kvs, false)
    ∧ (dictGet kvs ("wireframe_prompt") = none →
        dict_get_default (Json.obj kvs) ("wireframe_prompt") (Json.str "")
          = Except.ok (Json.str "")) := by
  refine ⟨by simp [synthesize_insights, h], ?_⟩
  intro hn
  simp [dict_get_default, hn]

/-- C10, witness at a parsed object lacking every expected key. -/
theorem synthesize_verbatim_witness :
    json_loads ("\x7b\"other\": 1\x7d") = some (Json.obj [("other", Json.num 1)])
    ∧ dictGet [("other", Json.num 1)] ("wireframe_prompt") = none
    ∧ synthesize_insights ("\x7b\"other\": 1\x7d") = (Json.obj [("other", Json.num 1)], false)
    ∧ dict_get_default (Json.obj [("other", Json.num 1)]) ("wireframe_prompt") (Json.str "")
        = Except.ok (Json.str "") := by
  refine ⟨rfl, rfl, (synthesize_verbatim ("\x7b\"other\": 1\x7d") _ rfl).1,
    (synthesize_verbatim ("\x7b\"other\": 1\x7d") _ rfl).2 rfl⟩

/-! ## Claim C7 -/

/-- C7, counterexample: the duplicate test of `main` compares an upload
only against records already in the session state, not against the other
uploads of the same batch — a batch holding the same (name, byte length)
twice is analyzed twice and appended twice, so the session collection does
contain two records with an equal pair. -/
theorem dedup_batch_counterexample :
    process_batch [] [("a", [0]), ("a", [0])] (fun _ _ => [])
      = [⟨"a", 1, []⟩, ⟨"a", 1, []⟩]
    ∧ ¬ no_dup_pairs (process_batch [] [("a", [0]), ("a", [0])] (fun _ _ => [])) := by
  refine ⟨rfl, ?_⟩
  intro hinv
  rw [show process_batch [] [("a", [0]), ("a", [0])] (fun _ _ => [])
      = [⟨"a", 1, []⟩, ⟨"a", 1, []⟩] from rfl] at hinv
  unfold no_dup_pairs at hinv
  exact (List.pairwise_cons.mp hinv).1 _ (List.mem_singleton.mpr rfl) ⟨rfl, rfl⟩

/-- C7, amended: deduplication holds across batches — an upload whose
(name, byte length) matches an existing record is neither re-analyzed nor
appended, an upload with a fresh pair (same name, different length
included) is appended, and the no-duplicate invariant is preserved
provided the batch itself carries no two uploads with an equal pair. -/
theorem dedup_amended (data : List UploadRecord) (uploads : List (String × List Nat))
    (analyzeF : String → List Nat → List (String × Json)) (u : String × List Nat) :
    (no_dup_pairs data →
      uploads.Pairwise (fun a b => ¬(a.1 = b.1 ∧ a.2.length = b.2.length)) →
      no_dup_pairs (process_batch data uploads analyzeF))
    ∧ (is_dup data u.1 u.2.length = true → process_batch data [u] analyzeF = data)
    ∧ (is_dup data u.1 u.2.length = false →
        process_batch data [u] analyzeF = data ++ [⟨u.1, u.2.length, analyzeF u.1 u.2⟩]) := by
  refine ⟨?_, ?_, ?_⟩
  · intro hdata hbatch
    unfold no_dup_pairs process_batch
    rw [List.pairwise_append]
    refine ⟨hdata, ?_, ?_⟩
    · rw [List.pairwise_map]
      exact List.Pairwise.sublist (List.filter_sublist _) hbatch
    · intro a ha b hb
      rw [List.mem_map] at hb
      obtain ⟨v, hv, rfl⟩ := hb
      rw [select_new, List.mem_filter] at hv
      have hnd : is_dup data v.1 v.2.length = false := by
        have := hv.2
        simpa using this
      rw [is_dup, List.any_eq_false] at hnd
      intro hpair
      exact hnd a ha (by simp [hpair.1, hpair.2])
  · intro hdup
    simp [process_batch, select_new, hdup]
  · intro hnew
    simp [process_batch, select_new, hnew]

/-- C7, witness for the amended theorem: a singleton session, a batch of
two distinct uploads, a duplicate upload that is skipped, and a same-name
different-size upload that is appended. -/
theorem dedup_amended_witness :
    no_dup_pairs (process_batch [⟨"a", 1, []⟩] [("a", [0, 0]), ("b", [0])] (fun _ _ => []))
    ∧ process_batch [⟨"a", 1, []⟩] [("a", [0])] (fun _ _ => []) = [⟨"a", 1, []⟩]
    ∧ process_batch [⟨"a", 1, []⟩] [("a", [0, 0])] (fun _ _ => [])
        = [⟨"a", 1, []⟩] ++ [⟨"a", 2, []⟩] := by
  refine ⟨?_, ?_, ?_⟩
  · refine (dedup_amended [⟨"a", 1, []⟩] [("a", [0, 0]), ("b", [0])]
        (fun _ _ => []) (("a", [0]))).1 ?_ ?_
    · unfold no_dup_pairs
      simp
    · simp
  · exact (dedup_amended [⟨"a", 1, []⟩] [] (fun _ _ => []) (("a", [0]))).2.1 rfl
  · exact (dedup_amended [⟨"a", 1, []⟩] [] (fun _ _ => []) (("a", [0, 0]))).2.2 rfl

/-! ## Claim C8 -/

/-- Every six-bit group produced from bytes is below 64. -/
theorem b64sextets_lt : ∀ data : List Nat, (∀ b ∈ data, b < 256) →
    ∀ s ∈ b64sextets data, s < 64 := by
  intro data
  induction data using b64sextets.induct with
  | case1 =>
    intro _ s hs
    simp [b64sextets] at hs
  | case2 a =>
    intro h s hs
    have ha := h a (by simp)
    simp [b64sextets] at hs
    rcases hs with rfl | rfl <;> omega
  | case3 a b =>
    intro h s hs
    have ha := h a (by simp)
    have hb := h b (by simp)
    simp [b64sextets] at hs
    rcases hs with rfl | rfl | rfl <;> omega
  | case4 a b c rest ih =>
    intro h s hs
    have ha := h a (by simp)
    have hb := h b (by simp)
    have hc := h c (by simp)
    simp only [b64sextets, List.mem_cons] at hs
    rcases hs with rfl | rfl | rfl | rfl | hs
    · omega
    · omega
    · omega
    · omega
    · exact ih (fun x hx => h x (by simp [hx])) s hs

/-- Reassembling bytes from the six-bit groups of a byte sequence gives
the sequence back. -/
theorem decodeSextets_b64sextets : ∀ data : List Nat, (∀ b ∈ data, b < 256) →
    decodeSextets (b64sextets data) = some data := by
  intro data
  induction data using b64sextets.induct with
  | case1 =>
    intro _
    rfl
  | case2 a =>
    intro h
    have ha := h a (by simp)
    simp [b64sextets, decodeSextets]
    omega
  | case3 a b =>
    intro h
    have ha := h a (by simp)
    have hb := h b (by simp)
    simp [b64sextets, decodeSextets]
    constructor <;> omega
  | case4 a b c rest ih =>
    intro h
    have ha := h a (by simp)
    have hb := h b (by simp)
    have hc := h c (by simp)
    have ih' := ih (fun x hx => h x (by simp [hx]))
    simp [b64sextets, decodeSextets, ih']
    refine ⟨?_, ?_, ?_⟩ <;> omega

/-- The alphabet map and its inverse cancel on six-bit values. -/
theorem decodeChar_encodeChar : ∀ i : Fin 64, decodeChar (encodeChar i.val) = some i.val := by
  decide

/-- No alphabet character is the padding character. -/
theorem encodeChar_ne_pad : ∀ i : Fin 64, (encodeChar i.val == padChar) = false := by
  decide

/-- Decoding the characters of encoded six-bit groups recovers the
groups. -/
theorem mapDecodeChars_map (l : List Nat) (h : ∀ s ∈ l, s < 64) :
    mapDecodeChars (l.map encodeChar) = some l := by
  induction l with
  | nil => rfl
  | cons s rest ih =>
    have hs := h s (by simp)
    have hd := decodeChar_encodeChar ⟨s, hs⟩
    simp [mapDecodeChars, hd, ih (fun x hx => h x (by simp [hx]))]

/-- Dropping the padding from an encoded payload leaves exactly the
alphabet characters. -/
theorem takeWhile_payload (l : List Char) (n : Nat)
    (hl : ∀ c ∈ l, (!(c == padChar)) = true) :
    (l ++ List.replicate n padChar).takeWhile (fun c => !(c == padChar)) = l := by
  rw [List.takeWhile_append_of_pos hl]
  cases n with
  | zero => simp
  | succ m => simp [List.replicate_succ, List.takeWhile_cons]

/-- C8: encoding is total and deterministic (it is a function), and
decoding the encoding of any byte sequence returns the sequence exactly. -/
theorem to_b64_roundtrip (data : List Nat) (h : ∀ b ∈ data, b < 256) :
    b64decode (to_b64 data) = some data := by
  have hlt := b64sextets_lt data h
  have hne : ∀ c ∈ (b64sextets data).map encodeChar, (!(c == padChar)) = true := by
    intro c hc
    rw [List.mem_map] at hc
    obtain ⟨s, hs, rfl⟩ := hc
    simp [encodeChar_ne_pad ⟨s, hlt s hs⟩]
  show (match mapDecodeChars (((to_b64 data).toList).takeWhile (fun c => !(c == padChar))) with
    | some sextets => decodeSextets sextets
    | none => none) = some data
  have htl : (to_b64 data).toList
      = (b64sextets data).map encodeChar
        ++ List.replicate ((3 - data.length % 3) % 3) padChar := rfl
  rw [htl, takeWhile_payload _ _ hne, mapDecodeChars_map _ hlt]
  exact decodeSextets_b64sextets data h

/-- C8, witness at the byte sequence 77, 0, 255, 10. -/
theorem to_b64_roundtrip_witness :
    (∀ b ∈ [77, 0, 255, 10], b < 256)
    ∧ b64decode (to_b64 [77, 0, 255, 10]) = some [77, 0, 255, 10] :=
  ⟨by decide, to_b64_roundtrip [77, 0, 255, 10] (by decide)⟩
